import Mathlib

/-!
Shallow embedding of the active-participant resolver of
`pkg/staking/participants.go` (package `staking`), together with the trivial
`DumbActiveParticipants` implementation.  External collaborators (chain head
store, execution engine, staking-contract ABI) are modelled as data carried by
an `Env` value; machine bytes are `Nat` values reduced modulo 256 where the
code depends on byte width; fallible Go functions returning `(T, error)` are
modelled as `Except Err T`.
-/

namespace Staking

/-- A single byte of a buffer or of an account identifier. -/
abbrev Byte := Nat

/-- `types.Address`: a fixed-width (20-byte) account identifier, compared by
byte equality.  Modelled as its list of bytes. -/
abbrev Address := List Byte

/-- `types.AddressLength` from the external `types` package. -/
def AddressLength : Nat := 20

/-- `types.BytesToAddress`: right-aligns the last `AddressLength` bytes of the
input, padding with zero bytes on the left. -/
def BytesToAddress (b : List Byte) : Address :=
  if AddressLength < b.length then b.drop (b.length - AddressLength)
  else List.replicate (AddressLength - b.length) 0 ++ b

/-- Error values returned by the resolver or forwarded from collaborators.
`infra` stands for an arbitrary error produced by an external collaborator
(gas-limit calculation, transition opening, engine apply, ABI encode/decode);
the remaining constructors are the errors the resolver itself constructs
(`errors.New` / `fmt.Errorf` in the source, identified here by shape rather
than by message text). -/
inductive Err where
  | infra : String → Err
  | methodNotFound : String → Err
  | assertNotMap : Err
  | assertNotAddressList : Err
  | nodeTypeMismatch : String → Err
deriving DecidableEq, Repr

/-- A block header (`types.Header`), restricted to the fields the resolver
reads or writes.  Hashes and state roots are abstract `Nat` identifiers. -/
structure Header where
  hash : Nat
  parentHash : Nat
  number : Nat
  miner : List Byte
  stateRoot : Nat
  gasLimit : Nat
  nonce : Nat
  timestamp : Nat
deriving DecidableEq, Repr

/-- The transaction value the resolver submits to `transition.Apply`
(`types.Transaction`, restricted to the fields the resolver sets). -/
structure Transaction where
  txFrom : Address
  toAddr : Address
  value : Int
  input : List Byte
  gasPrice : Int
  gas : Nat
  nonce : Nat
deriving DecidableEq, Repr

/-- The engine's execution result: `returnValue` is the raw return buffer,
`failed` models `res.Failed()`, and `err` models `res.Err` (only consulted
when `failed` is true, as in the source). -/
structure ApplyResult where
  returnValue : List Byte
  failed : Bool
  err : Err
deriving DecidableEq, Repr

/-- An open state transition (`*state.Transition`): the engine behaviour is
modelled by its two operations the resolver uses. -/
structure Transition where
  apply : Transaction → Except Err ApplyResult
  getNonce : Address → Nat

/-- The dynamic shape of `method.Outputs.Decode`: either a map whose field
`"0"` holds an address list (the shape every participant query expects), or a
value failing one of the two runtime type assertions in `DecodeParticipants`. -/
inductive Decoded where
  | addrMap : List Address → Decoded
  | notMap : Decoded
  | mapWrongField : Decoded
deriving DecidableEq, Repr

/-- An ABI method descriptor: `id` is the call selector (`method.ID()`),
`decodeOutputs` models `method.Outputs.Decode`, and `encodeInputs` models
`method.Inputs.Encode` applied to the single `addr` argument's bytes. -/
structure AbiMethod where
  id : List Byte
  decodeOutputs : List Byte → Except Err Decoded
  encodeInputs : List Byte → Except Err (List Byte)

/-- The external collaborators of one resolver value: the chain head store
(`blockchain.Header()` and `blockchain.CalculateGasLimit`), the execution
engine (`executor.BeginTxn`), the staking-contract ABI method table
(`abi.MustNewABI(StakingABI).Methods`) and the staking contract address. -/
structure Env where
  head : Header
  calculateGasLimit : Nat → Except Err Nat
  beginTxn : Nat → Header → Address → Except Err Transition
  stakingAbi : String → Option AbiMethod
  addrStakingContract : Address

/-- Modelled from the spec: `NodeType` is declared outside the given sources;
the spec describes it as an enumerated role carried as a string, with exactly
`Sequencer` and `WatchTower` recognized.  Only the distinctness of the two
constants is used. -/
abbrev NodeType := String

/-- Modelled from the spec: the `Sequencer` role constant. -/
def Sequencer : NodeType := "sequencer"

/-- Modelled from the spec: the `WatchTower` role constant. -/
def WatchTower : NodeType := "watchtower"

/-- The speculative next-block header each resolver operation constructs from
the current head (the literal repeated in `Get`, `InProbation`, `GetBalance`,
`GetTotalStakedAmount` and `QueryActiveSequencers`): parent hash, number + 1,
the supplied miner bytes, zero nonce, the parent's gas limit, and the
wall-clock timestamp `now`.  Fields not set by the Go literal are zero. -/
def speculativeHeader (parent : Header) (minerAddress : Address) (now : Nat) : Header :=
  { hash := 0
    parentHash := parent.hash
    number := parent.number + 1
    miner := minerAddress
    stateRoot := 0
    gasLimit := parent.gasLimit
    nonce := 0
    timestamp := now }

/-- The context-building block repeated verbatim at the start of every
resolver operation: construct the speculative header, calculate the gas limit
for its number, and open a transition at the head's state root addressed by
that header. -/
def buildContext (env : Env) (minerAddress : Address) (now : Nat) :
    Except Err (Nat × Transition) :=
  match env.calculateGasLimit (speculativeHeader env.head minerAddress now).number with
  | .error e => .error e
  | .ok gasLimit =>
    match env.beginTxn env.head.stateRoot (speculativeHeader env.head minerAddress now)
        minerAddress with
    | .error e => .error e
    | .ok transition => .ok (gasLimit, transition)

/-- `DecodeParticipants`: decode the raw return buffer through the method's
output codec, then perform the two runtime type assertions, producing the
address list. -/
def DecodeParticipants (method : AbiMethod) (returnValue : List Byte) :
    Except Err (List Address) :=
  match method.decodeOutputs returnValue with
  | .error e => .error e
  | .ok (.addrMap web3Addresses) => .ok web3Addresses
  | .ok .notMap => .error .assertNotMap
  | .ok .mapWrongField => .error .assertNotAddressList

/-- `QueryParticipants`: look up `GetCurrentParticipants`, apply a zero-value
zero-gas-price call with the method selector as input, surface engine errors
and contract failures, and decode the participants. -/
def QueryParticipants (env : Env) (t : Transition) (gasLimit : Nat) (fromAddr : Address) :
    Except Err (List Address) :=
  match env.stakingAbi "GetCurrentParticipants" with
  | none => .error (.methodNotFound "GetCurrentParticipants")
  | some method =>
    match t.apply { txFrom := fromAddr, toAddr := env.addrStakingContract, value := 0,
                    input := method.id, gasPrice := 0, gas := gasLimit,
                    nonce := t.getNonce fromAddr } with
    | .error e => .error e
    | .ok res =>
      if res.failed then .error res.err
      else DecodeParticipants method res.returnValue

/-- `QuerySequencers`: same call shape against `GetCurrentSequencers`. -/
def QuerySequencers (env : Env) (t : Transition) (gasLimit : Nat) (fromAddr : Address) :
    Except Err (List Address) :=
  match env.stakingAbi "GetCurrentSequencers" with
  | none => .error (.methodNotFound "GetCurrentSequencers")
  | some method =>
    match t.apply { txFrom := fromAddr, toAddr := env.addrStakingContract, value := 0,
                    input := method.id, gasPrice := 0, gas := gasLimit,
                    nonce := t.getNonce fromAddr } with
    | .error e => .error e
    | .ok res =>
      if res.failed then .error res.err
      else DecodeParticipants method res.returnValue

/-- `QuerySequencersInProbation`: same call shape against
`GetCurrentSequencersInProbation`. -/
def QuerySequencersInProbation (env : Env) (t : Transition) (gasLimit : Nat)
    (fromAddr : Address) : Except Err (List Address) :=
  match env.stakingAbi "GetCurrentSequencersInProbation" with
  | none => .error (.methodNotFound "GetCurrentSequencersInProbation")
  | some method =>
    match t.apply { txFrom := fromAddr, toAddr := env.addrStakingContract, value := 0,
                    input := method.id, gasPrice := 0, gas := gasLimit,
                    nonce := t.getNonce fromAddr } with
    | .error e => .error e
    | .ok res =>
      if res.failed then .error res.err
      else DecodeParticipants method res.returnValue

/-- `QueryWatchtower`: same call shape against `GetCurrentWatchtowers`. -/
def QueryWatchtower (env : Env) (t : Transition) (gasLimit : Nat) (fromAddr : Address) :
    Except Err (List Address) :=
  match env.stakingAbi "GetCurrentWatchtowers" with
  | none => .error (.methodNotFound "GetCurrentWatchtowers")
  | some method =>
    match t.apply { txFrom := fromAddr, toAddr := env.addrStakingContract, value := 0,
                    input := method.id, gasPrice := 0, gas := gasLimit,
                    nonce := t.getNonce fromAddr } with
    | .error e => .error e
    | .ok res =>
      if res.failed then .error res.err
      else DecodeParticipants method res.returnValue

/-- The inner loop of `QueryActiveSequencers`: does `addr` match some element
of the probation list?  The Go source compares the hexadecimal `String()`
forms of two fixed-width addresses, which coincide exactly when the byte
arrays coincide, so the comparison is embedded as byte equality. -/
def probationMatch (addr : Address) : List Address → Bool
  | [] => false
  | p :: rest => if addr = p then true else probationMatch addr rest

/-- The outer loop of `QueryActiveSequencers` (`mainLoop`): keep, in order,
every sequencer address that matches no probation entry. -/
def filterProbation (probationAddrs : List Address) : List Address → List Address
  | [] => []
  | addr :: rest =>
    if probationMatch addr probationAddrs then filterProbation probationAddrs rest
    else addr :: filterProbation probationAddrs rest

/-- `QueryActiveSequencers`: query the sequencer role set on the supplied
transition, then rebuild a second transition context at the same head (with
its own gas-limit recomputation, timestamp `now2`) and query the probation
set on it, and finally drop every probation member from the role set. -/
def QueryActiveSequencers (env : Env) (t : Transition) (gasLimit : Nat)
    (fromAddr : Address) (now2 : Nat) : Except Err (List Address) :=
  match QuerySequencers env t gasLimit fromAddr with
  | .error e => .error e
  | .ok addrs =>
    match buildContext env fromAddr now2 with
    | .error e => .error e
    | .ok (probationGasLimit, transition) =>
      match QuerySequencersInProbation env transition probationGasLimit fromAddr with
      | .error e => .error e
      | .ok probationAddrs => .ok (filterProbation probationAddrs addrs)

/-- `activeParticipantsQuerier.Get`: build the transition context from the
current head (this happens before the role switch), then dispatch on the node
type; unsupported node types produce the mismatch error. -/
def Get (env : Env) (now now2 : Nat) (nodeType : NodeType) :
    Except Err (List Address) :=
  match buildContext env (BytesToAddress env.head.miner) now with
  | .error e => .error e
  | .ok (gasLimit, transition) =>
    if nodeType = Sequencer then
      QueryActiveSequencers env transition gasLimit (BytesToAddress env.head.miner) now2
    else if nodeType = WatchTower then
      QueryWatchtower env transition gasLimit (BytesToAddress env.head.miner)
    else
      .error (.nodeTypeMismatch nodeType)

/-- The membership loop of `activeParticipantsQuerier.Contains`. -/
def containsLoop (addr : Address) : List Address → Bool
  | [] => false
  | a :: rest => if a = addr then true else containsLoop addr rest

/-- `activeParticipantsQuerier.Contains`: delegate to `Get` and linearly test
membership by byte equality; absence yields `false`, not an error. -/
def Contains (env : Env) (now now2 : Nat) (addr : Address) (nodeType : NodeType) :
    Except Err Bool :=
  match Get env now now2 nodeType with
  | .error e => .error e
  | .ok addrs => .ok (containsLoop addr addrs)

/-- `activeParticipantsQuerier.InProbation`: build a fresh context, query the
probation set, and test membership by byte equality (`bytes.Equal`). -/
def InProbation (env : Env) (now : Nat) (address : Address) : Except Err Bool :=
  match buildContext env (BytesToAddress env.head.miner) now with
  | .error e => .error e
  | .ok (gasLimit, transition) =>
    match QuerySequencersInProbation env transition gasLimit
        (BytesToAddress env.head.miner) with
    | .error e => .error e
    | .ok probationAddrs => .ok (probationMatch address probationAddrs)

/-- `new(big.Int).SetBytes`: interpret a buffer as an unsigned big-endian
integer.  Each byte is reduced modulo 256, which is the identity on genuine
byte values. -/
def bigIntSetBytes (bs : List Byte) : Nat :=
  bs.foldl (fun acc b => acc * 256 + b % 256) 0

/-- `QueryParticipantBalance`: look up `GetCurrentAccountStakedAmount`, encode
the queried address as the sole input, apply the call, and decode the raw
return buffer as an unsigned big-endian integer. -/
def QueryParticipantBalance (env : Env) (t : Transition) (gasLimit : Nat)
    (fromAddr addr : Address) : Except Err Nat :=
  match env.stakingAbi "GetCurrentAccountStakedAmount" with
  | none => .error (.methodNotFound "GetCurrentAccountStakedAmount")
  | some method =>
    match method.encodeInputs addr with
    | .error e => .error e
    | .ok encodedInput =>
      match t.apply { txFrom := fromAddr, toAddr := env.addrStakingContract, value := 0,
                      input := method.id ++ encodedInput, gasPrice := 0, gas := gasLimit,
                      nonce := t.getNonce fromAddr } with
      | .error e => .error e
      | .ok res =>
        if res.failed then .error res.err
        else .ok (bigIntSetBytes res.returnValue)

/-- `QueryParticipantTotalStakedAmount`: same against `GetCurrentStakedAmount`
with no arguments. -/
def QueryParticipantTotalStakedAmount (env : Env) (t : Transition) (gasLimit : Nat)
    (fromAddr : Address) : Except Err Nat :=
  match env.stakingAbi "GetCurrentStakedAmount" with
  | none => .error (.methodNotFound "GetCurrentStakedAmount")
  | some method =>
    match t.apply { txFrom := fromAddr, toAddr := env.addrStakingContract, value := 0,
                    input := method.id, gasPrice := 0, gas := gasLimit,
                    nonce := t.getNonce fromAddr } with
    | .error e => .error e
    | .ok res =>
      if res.failed then .error res.err
      else .ok (bigIntSetBytes res.returnValue)

/-- `activeParticipantsQuerier.GetBalance`: build a fresh context and query
the participant balance. -/
def GetBalance (env : Env) (now : Nat) (address : Address) : Except Err Nat :=
  match buildContext env (BytesToAddress env.head.miner) now with
  | .error e => .error e
  | .ok (gasLimit, transition) =>
    QueryParticipantBalance env transition gasLimit (BytesToAddress env.head.miner) address

/-- `activeParticipantsQuerier.GetTotalStakedAmount`: build a fresh context
and query the total staked amount. -/
def GetTotalStakedAmount (env : Env) (now : Nat) : Except Err Nat :=
  match buildContext env (BytesToAddress env.head.miner) now with
  | .error e => .error e
  | .ok (gasLimit, transition) =>
    QueryParticipantTotalStakedAmount env transition gasLimit
      (BytesToAddress env.head.miner)

namespace DumbActiveParticipants

/-- `DumbActiveParticipants.Get`: always `(nil, nil)`. -/
def Get (_ : NodeType) : Option (List Address) × Option Err := (none, none)

/-- `DumbActiveParticipants.Contains`: always `(true, nil)`. -/
def Contains (_ : Address) (_ : NodeType) : Bool × Option Err := (true, none)

/-- `DumbActiveParticipants.GetBalance`: always `(nil, nil)`. -/
def GetBalance (_ : Address) : Option Nat × Option Err := (none, none)

/-- `DumbActiveParticipants.GetTotalStakedAmount`: always `(nil, nil)`. -/
def GetTotalStakedAmount : Option Nat × Option Err := (none, none)

/-- `DumbActiveParticipants.InProbation`: always `(true, nil)`. -/
def InProbation (_ : Address) : Bool × Option Err := (true, none)

end DumbActiveParticipants

/-- The `w`-byte big-endian encoding of `V % 256 ^ w` — the buffer shape an
unsigned 256-bit contract return value takes for `w = 32`. -/
def beBytes : Nat → Nat → List Byte
  | 0, _ => []
  | w + 1, V => beBytes w (V / 256) ++ [V % 256]

/-- The engine does not distinguish speculative headers that differ only in
the advisory timestamp field: `beginTxn` returns the same result for two
headers agreeing on every field other than `timestamp`. -/
def timestampOblivious (env : Env) : Prop :=
  ∀ (root : Nat) (h₁ h₂ : Header) (m : Address),
    h₁.hash = h₂.hash → h₁.parentHash = h₂.parentHash → h₁.number = h₂.number →
    h₁.miner = h₂.miner → h₁.stateRoot = h₂.stateRoot → h₁.gasLimit = h₂.gasLimit →
    h₁.nonce = h₂.nonce →
    env.beginTxn root h₁ m = env.beginTxn root h₂ m

/-! Concrete sample data used to evaluate the definitions on closed inputs. -/

/-- Sample address 1. -/
def addr1 : Address := [1]

/-- Sample address 2. -/
def addr2 : Address := [2]

/-- Sample address 3. -/
def addr3 : Address := [3]

/-- Sample address 4. -/
def addr4 : Address := [4]

/-- Sample staking-contract address. -/
def addrContractW : Address := List.replicate 19 0 ++ [240]

/-- Sample miner bytes of the sample chain head (already 20 bytes wide). -/
def minerBytesW : List Byte := List.replicate 20 7

/-- Sample `GetCurrentSequencers` descriptor: decodes every buffer to the role
set `[addr1, addr2, addr3]`. -/
def mSeqW : AbiMethod :=
  { id := [10], decodeOutputs := fun _ => .ok (.addrMap [addr1, addr2, addr3]),
    encodeInputs := fun b => .ok b }

/-- Sample `GetCurrentSequencersInProbation` descriptor: decodes every buffer
to the probation set `[addr2]`. -/
def mProbW : AbiMethod :=
  { id := [11], decodeOutputs := fun _ => .ok (.addrMap [addr2]),
    encodeInputs := fun b => .ok b }

/-- Sample `GetCurrentWatchtowers` descriptor: decodes every buffer to the
watchtower set `[addr2, addr4]` (note `addr2` is also in probation). -/
def mWtW : AbiMethod :=
  { id := [12], decodeOutputs := fun _ => .ok (.addrMap [addr2, addr4]),
    encodeInputs := fun b => .ok b }

/-- Sample `GetCurrentAccountStakedAmount` descriptor (output codec unused by
the balance path, which reads the raw buffer). -/
def mBalW : AbiMethod :=
  { id := [13], decodeOutputs := fun _ => .ok .notMap, encodeInputs := fun b => .ok b }

/-- Sample `GetCurrentStakedAmount` descriptor. -/
def mTotW : AbiMethod :=
  { id := [14], decodeOutputs := fun _ => .ok .notMap, encodeInputs := fun b => .ok b }

/-- Sample `GetCurrentParticipants` descriptor. -/
def mPartW : AbiMethod :=
  { id := [15], decodeOutputs := fun _ => .ok (.addrMap [addr1, addr2, addr3, addr4]),
    encodeInputs := fun b => .ok b }

/-- The sample engine result: a successful call whose return buffer is the
32-byte big-endian encoding of zero. -/
def applyResultW : ApplyResult :=
  { returnValue := beBytes 32 0, failed := false, err := .infra "unused" }

/-- The sample transition: every call succeeds with `applyResultW`. -/
def trW : Transition := { apply := fun _ => .ok applyResultW, getNonce := fun _ => 0 }

/-- The sample ABI method table. -/
def stakingAbiW : String → Option AbiMethod := fun name =>
  if name = "GetCurrentSequencers" then some mSeqW
  else if name = "GetCurrentSequencersInProbation" then some mProbW
  else if name = "GetCurrentWatchtowers" then some mWtW
  else if name = "GetCurrentAccountStakedAmount" then some mBalW
  else if name = "GetCurrentStakedAmount" then some mTotW
  else if name = "GetCurrentParticipants" then some mPartW
  else none

/-- The sample chain head.  Its gas limit (1000) deliberately differs from the
gas-limit calculator's result (8000). -/
def headW : Header :=
  { hash := 100, parentHash := 99, number := 5, miner := minerBytesW,
    stateRoot := 55, gasLimit := 1000, nonce := 0, timestamp := 11 }

/-- The sample environment: a healthy engine over `headW`. -/
def envW : Env :=
  { head := headW, calculateGasLimit := fun _ => .ok 8000,
    beginTxn := fun _ _ _ => .ok trW, stakingAbi := stakingAbiW,
    addrStakingContract := addrContractW }

/-- A sample transition whose probation query (selector `[11]`) fails with an
engine error while every other call succeeds. -/
def trFailProbW : Transition :=
  { apply := fun tx =>
      if tx.input = [11] then .error (.infra "probation query down")
      else .ok applyResultW,
    getNonce := fun _ => 0 }

/-- The sample environment with a failing probation query. -/
def envFailProbW : Env := { envW with beginTxn := fun _ _ _ => .ok trFailProbW }

/-- The sample environment whose gas-limit calculation always fails. -/
def envGasFailW : Env :=
  { envW with calculateGasLimit := fun _ => .error (.infra "gas limit history missing") }

/-! Shared helper lemmas about the loop embeddings and the byte decoder. -/

theorem probationMatch_true_iff (a : Address) (P : List Address) :
    probationMatch a P = true ↔ a ∈ P := by
  induction P with
  | nil => simp [probationMatch]
  | cons p rest ih =>
    by_cases h : a = p
    · simp [probationMatch, h]
    · simp [probationMatch, h, ih]

theorem filterProbation_eq_filter (P R : List Address) :
    filterProbation P R = R.filter (fun a => decide (a ∉ P)) := by
  induction R with
  | nil => rfl
  | cons a rest ih =>
    by_cases h : a ∈ P
    · have hm : probationMatch a P = true := (probationMatch_true_iff a P).mpr h
      simp [filterProbation, hm, ih, h]
    · have hm : probationMatch a P = false := by
        cases hmm : probationMatch a P with
        | false => rfl
        | true => exact absurd ((probationMatch_true_iff a P).mp hmm) h
      simp [filterProbation, hm, ih, h]

theorem containsLoop_eq_mem (a : Address) (L : List Address) :
    containsLoop a L = decide (a ∈ L) := by
  induction L with
  | nil => simp [containsLoop]
  | cons x rest ih =>
    by_cases h : x = a
    · simp [containsLoop, h]
    · have h2 : ¬a = x := fun hc => h hc.symm
      simp [containsLoop, h, ih, h2]

theorem bigIntSetBytes_append_singleton (l : List Byte) (b : Byte) :
    bigIntSetBytes (l ++ [b]) = bigIntSetBytes l * 256 + b % 256 := by
  simp [bigIntSetBytes, List.foldl_append]

theorem bigIntSetBytes_beBytes (w V : Nat) :
    bigIntSetBytes (beBytes w V) = V % 256 ^ w := by
  induction w generalizing V with
  | zero => simp [beBytes, bigIntSetBytes, Nat.mod_one]
  | succ w ih =>
    rw [beBytes, bigIntSetBytes_append_singleton, ih, Nat.mod_mod_of_dvd _ dvd_rfl,
      pow_succ, mul_comm (256 ^ w) 256, Nat.mod_mul]
    omega

theorem buildContext_timestamp_eq (env : Env) (hts : timestampOblivious env)
    (m : Address) (n n' : Nat) : buildContext env m n = buildContext env m n' := by
  unfold buildContext
  rw [show (speculativeHeader env.head m n).number
        = (speculativeHeader env.head m n').number from rfl,
    hts env.head.stateRoot (speculativeHeader env.head m n)
      (speculativeHeader env.head m n') m rfl rfl rfl rfl rfl rfl rfl]

theorem queryActiveSequencers_timestamp_eq (env : Env) (hts : timestampOblivious env)
    (t : Transition) (gl : Nat) (m : Address) (n2 n2' : Nat) :
    QueryActiveSequencers env t gl m n2 = QueryActiveSequencers env t gl m n2' := by
  unfold QueryActiveSequencers
  rw [buildContext_timestamp_eq env hts m n2 n2']

theorem get_timestamp_eq (env : Env) (hts : timestampOblivious env)
    (n1 n2 n1' n2' : Nat) (nt : NodeType) :
    Get env n1 n2 nt = Get env n1' n2' nt := by
  unfold Get
  rw [buildContext_timestamp_eq env hts (BytesToAddress env.head.miner) n1 n1']
  cases hb : buildContext env (BytesToAddress env.head.miner) n1' with
  | error e => rfl
  | ok pr =>
    obtain ⟨gl, t⟩ := pr
    simp only []
    by_cases h1 : nt = Sequencer
    · rw [if_pos h1, if_pos h1,
        queryActiveSequencers_timestamp_eq env hts t gl (BytesToAddress env.head.miner) n2 n2']
    · rw [if_neg h1, if_neg h1]

theorem probationMatch_eq_decide (a : Address) (P : List Address) :
    probationMatch a P = decide (a ∈ P) := by
  by_cases h : a ∈ P
  · rw [(probationMatch_true_iff a P).mpr h, decide_eq_true h]
  · have hf : probationMatch a P = false := by
      cases hmm : probationMatch a P with
      | false => rfl
      | true => exact absurd ((probationMatch_true_iff a P).mp hmm) h
    rw [hf, decide_eq_false h]

/-! Claim theorems. -/

/-- C1: when the sequencer role query returns `R` and the probation query —
issued against a second, independently opened transition context at the same
head — returns `P`, `Get Sequencer` returns exactly the members of `R` not in
`P`, in `R`'s original order, introducing and removing no duplicates. -/
theorem get_sequencer_filters_probation (env : Env) (now now2 : Nat)
    (gl : Nat) (t : Transition) (R : List Address)
    (gl2 : Nat) (t2 : Transition) (P : List Address)
    (hctx : buildContext env (BytesToAddress env.head.miner) now = .ok (gl, t))
    (hR : QuerySequencers env t gl (BytesToAddress env.head.miner) = .ok R)
    (hctx2 : buildContext env (BytesToAddress env.head.miner) now2 = .ok (gl2, t2))
    (hP : QuerySequencersInProbation env t2 gl2 (BytesToAddress env.head.miner) = .ok P) :
    ∃ res, Get env now now2 Sequencer = .ok res ∧
      res = R.filter (fun a => decide (a ∉ P)) ∧
      res.Sublist R ∧
      (∀ a, a ∈ res ↔ a ∈ R ∧ a ∉ P) ∧
      (R.Nodup → res.Nodup) := by
  refine ⟨R.filter (fun a => decide (a ∉ P)), ?_, rfl, List.filter_sublist R, ?_, ?_⟩
  · unfold Get QueryActiveSequencers
    simp only [hctx, hR, hctx2, hP, filterProbation_eq_filter]
    rw [if_pos trivial]
  · intro a
    simp [List.mem_filter]
  · intro hnd
    exact hnd.filter _

/-- C1 witness: the theorem applied to the sample environment with role set
`[addr1, addr2, addr3]` and probation set `[addr2]`. -/
theorem get_sequencer_filters_probation_witness :
    buildContext envW (BytesToAddress envW.head.miner) 0 = .ok (8000, trW) ∧
    QuerySequencers envW trW 8000 (BytesToAddress envW.head.miner)
      = .ok [addr1, addr2, addr3] ∧
    QuerySequencersInProbation envW trW 8000 (BytesToAddress envW.head.miner)
      = .ok [addr2] ∧
    ∃ res, Get envW 0 0 Sequencer = .ok res ∧
      res = [addr1, addr2, addr3].filter (fun a => decide (a ∉ [addr2])) ∧
      res.Sublist [addr1, addr2, addr3] ∧
      (∀ a, a ∈ res ↔ a ∈ [addr1, addr2, addr3] ∧ a ∉ [addr2]) ∧
      ([addr1, addr2, addr3].Nodup → res.Nodup) :=
  ⟨rfl, rfl, rfl,
    get_sequencer_filters_probation envW 0 0 8000 trW [addr1, addr2, addr3]
      8000 trW [addr2] rfl rfl rfl rfl⟩

/-- C2 counterexample: `Get` builds the transition context before examining
the node type, so with a failing gas-limit calculator the call on the
unsupported node type `"Validator"` returns the infrastructure error — it
neither fails immediately with the unsupported-node-type error nor avoids
engine work. -/
theorem get_unsupported_type_counterexample :
    ("Validator" : NodeType) ≠ Sequencer ∧ ("Validator" : NodeType) ≠ WatchTower ∧
    Get envGasFailW 0 0 "Validator" = .error (.infra "gas limit history missing") ∧
    Get envGasFailW 0 0 "Validator" ≠ .error (.nodeTypeMismatch "Validator") := by
  refine ⟨by decide, by decide, rfl, ?_⟩
  intro h
  rw [show Get envGasFailW 0 0 "Validator"
      = .error (.infra "gas limit history missing") from rfl] at h
  simp at h

/-- C2 amended: for node types outside {Sequencer, WatchTower}, `Get` never
yields an address list and does not default to either role; once the
always-attempted context building succeeds it returns precisely the
unsupported-node-type error (a context-building failure is returned instead). -/
theorem get_unsupported_type_fails (env : Env) (now now2 : Nat) (nt : NodeType)
    (gl : Nat) (t : Transition)
    (hseq : nt ≠ Sequencer) (hwt : nt ≠ WatchTower)
    (hctx : buildContext env (BytesToAddress env.head.miner) now = .ok (gl, t)) :
    Get env now now2 nt = .error (.nodeTypeMismatch nt) := by
  unfold Get
  simp only [hctx]
  rw [if_neg hseq, if_neg hwt]

/-- C2 witness: the amended theorem applied to the healthy sample environment
and node type `"Validator"`. -/
theorem get_unsupported_type_fails_witness :
    ("Validator" : NodeType) ≠ Sequencer ∧ ("Validator" : NodeType) ≠ WatchTower ∧
    buildContext envW (BytesToAddress envW.head.miner) 0 = .ok (8000, trW) ∧
    Get envW 0 0 "Validator" = .error (.nodeTypeMismatch "Validator") :=
  ⟨by decide, by decide, rfl,
    get_unsupported_type_fails envW 0 0 "Validator" 8000 trW (by decide) (by decide) rfl⟩

/-- C3: every failure of context building, of the role-set query, or of the
second-context probation query makes `Get Sequencer` return exactly that
error — no fallback to the unfiltered role set and no silently substituted
empty set. -/
theorem get_sequencer_error_propagation (env : Env) (now now2 : Nat) (e : Err)
    (h : buildContext env (BytesToAddress env.head.miner) now = .error e
      ∨ (∃ gl t, buildContext env (BytesToAddress env.head.miner) now = .ok (gl, t) ∧
          QuerySequencers env t gl (BytesToAddress env.head.miner) = .error e)
      ∨ (∃ gl t R, buildContext env (BytesToAddress env.head.miner) now = .ok (gl, t) ∧
          QuerySequencers env t gl (BytesToAddress env.head.miner) = .ok R ∧
          (buildContext env (BytesToAddress env.head.miner) now2 = .error e
            ∨ ∃ gl2 t2,
                buildContext env (BytesToAddress env.head.miner) now2 = .ok (gl2, t2) ∧
                QuerySequencersInProbation env t2 gl2 (BytesToAddress env.head.miner)
                  = .error e))) :
    Get env now now2 Sequencer = .error e := by
  rcases h with h1 | ⟨gl, t, hctx, hq⟩ | ⟨gl, t, R, hctx, hR, h2⟩
  · unfold Get
    simp only [h1]
  · unfold Get QueryActiveSequencers
    simp only [hctx, hq]
    rw [if_pos trivial]
  · rcases h2 with hc2 | ⟨gl2, t2, hctx2, hp⟩
    · unfold Get QueryActiveSequencers
      simp only [hctx, hR, hc2]
      rw [if_pos trivial]
    · unfold Get QueryActiveSequencers
      simp only [hctx, hR, hctx2, hp]
      rw [if_pos trivial]

/-- C3 witness: in the sample environment whose probation call fails, the
role query succeeds yet `Get Sequencer` returns the probation error. -/
theorem get_sequencer_error_propagation_witness :
    (buildContext envFailProbW (BytesToAddress envFailProbW.head.miner) 0
        = .ok (8000, trFailProbW) ∧
      QuerySequencers envFailProbW trFailProbW 8000
        (BytesToAddress envFailProbW.head.miner) = .ok [addr1, addr2, addr3] ∧
      QuerySequencersInProbation envFailProbW trFailProbW 8000
        (BytesToAddress envFailProbW.head.miner) = .error (.infra "probation query down")) ∧
    Get envFailProbW 0 0 Sequencer = .error (.infra "probation query down") :=
  ⟨⟨rfl, rfl, rfl⟩,
    get_sequencer_error_propagation envFailProbW 0 0 (.infra "probation query down")
      (Or.inr (Or.inr ⟨8000, trFailProbW, [addr1, addr2, addr3], rfl, rfl,
        Or.inr ⟨8000, trFailProbW, rfl, rfl⟩⟩))⟩

/-- C4: when `Get` succeeds with list `L`, `Contains` succeeds and returns
exactly the byte-equality membership of the address in `L` — `false`, not an
error, for absent addresses. -/
theorem contains_iff_mem_get (env : Env) (now now2 : Nat) (a : Address)
    (nt : NodeType) (L : List Address)
    (h : Get env now now2 nt = .ok L) :
    Contains env now now2 a nt = .ok (decide (a ∈ L)) := by
  unfold Contains
  simp only [h, containsLoop_eq_mem]

/-- C4 witness: `addr2` (a probated sequencer) is absent from
`Get Sequencer`, and `Contains` reports `false`, not an error. -/
theorem contains_iff_mem_get_witness :
    Get envW 0 0 Sequencer = .ok [addr1, addr3] ∧
    Contains envW 0 0 addr2 Sequencer = .ok (decide (addr2 ∈ [addr1, addr3])) :=
  ⟨rfl, contains_iff_mem_get envW 0 0 addr2 Sequencer [addr1, addr3] rfl⟩

/-- C5: `Get WatchTower` returns the raw `GetCurrentWatchtowers` result
unfiltered, whatever the (independently supplied) probation set contains. -/
theorem get_watchtower_ignores_probation (env : Env) (now now2 : Nat)
    (gl : Nat) (t : Transition) (W : List Address)
    (gl2 : Nat) (t2 : Transition) (P : List Address)
    (hctx : buildContext env (BytesToAddress env.head.miner) now = .ok (gl, t))
    (hW : QueryWatchtower env t gl (BytesToAddress env.head.miner) = .ok W)
    (_hctx2 : buildContext env (BytesToAddress env.head.miner) now2 = .ok (gl2, t2))
    (_hP : QuerySequencersInProbation env t2 gl2 (BytesToAddress env.head.miner) = .ok P) :
    Get env now now2 WatchTower = .ok W := by
  unfold Get
  simp only [hctx]
  rw [if_pos trivial]
  exact hW

/-- C5 witness: `addr2` is in probation yet still appears in
`Get WatchTower`. -/
theorem get_watchtower_ignores_probation_witness :
    QueryWatchtower envW trW 8000 (BytesToAddress envW.head.miner) = .ok [addr2, addr4] ∧
    QuerySequencersInProbation envW trW 8000 (BytesToAddress envW.head.miner)
      = .ok [addr2] ∧
    Get envW 0 0 WatchTower = .ok [addr2, addr4] ∧ addr2 ∈ [addr2, addr4] :=
  ⟨rfl, rfl,
    get_watchtower_ignores_probation envW 0 0 8000 trW [addr2, addr4] 8000 trW [addr2]
      rfl rfl rfl rfl,
    by decide⟩

/-- C6 counterexample: in the sample environment the speculative header
carries the parent's gas limit (1000), while the gas-limit calculator —
whose result (8000) only becomes the context gas limit used for the query
transaction — differs; the header's gas-limit field is not the calculator
result, refuting the claimed header construction. -/
theorem speculative_header_gas_limit_counterexample :
    (speculativeHeader envW.head (BytesToAddress envW.head.miner) 0).gasLimit = 1000 ∧
    envW.calculateGasLimit
        (speculativeHeader envW.head (BytesToAddress envW.head.miner) 0).number
      = .ok 8000 ∧
    buildContext envW (BytesToAddress envW.head.miner) 0 = .ok (8000, trW) ∧
    (1000 : Nat) ≠ 8000 :=
  ⟨rfl, rfl, rfl, by decide⟩

/-- C6 amended: the speculative header has parent hash = head.hash, number =
head.number + 1, miner = the supplied miner address bytes, zero nonce,
timestamp = the supplied wall-clock value, and gas limit inherited from the
head (not the calculator result); the calculator is invoked for the next
number and its result is the context gas limit, and the transition is opened
at head.stateRoot addressed by that header. -/
theorem build_context_header_spec (env : Env) (m : Address) (now gl : Nat)
    (t : Transition)
    (h : buildContext env m now = .ok (gl, t)) :
    (speculativeHeader env.head m now).parentHash = env.head.hash ∧
    (speculativeHeader env.head m now).number = env.head.number + 1 ∧
    (speculativeHeader env.head m now).miner = m ∧
    (speculativeHeader env.head m now).nonce = 0 ∧
    (speculativeHeader env.head m now).gasLimit = env.head.gasLimit ∧
    (speculativeHeader env.head m now).timestamp = now ∧
    env.calculateGasLimit (env.head.number + 1) = .ok gl ∧
    env.beginTxn env.head.stateRoot (speculativeHeader env.head m now) m = .ok t := by
  unfold buildContext at h
  cases hg : env.calculateGasLimit (speculativeHeader env.head m now).number with
  | error e =>
    simp only [hg] at h
    exact Except.noConfusion h
  | ok g =>
    cases hbt : env.beginTxn env.head.stateRoot (speculativeHeader env.head m now) m with
    | error e =>
      simp only [hg, hbt] at h
      exact Except.noConfusion h
    | ok tr =>
      simp only [hg, hbt, Except.ok.injEq, Prod.mk.injEq] at h
      obtain ⟨hgl, htr⟩ := h
      subst hgl
      subst htr
      exact ⟨rfl, rfl, rfl, rfl, rfl, rfl, hg, rfl⟩

/-- C6 witness: the amended theorem evaluated on the sample environment. -/
theorem build_context_header_spec_witness :
    buildContext envW (BytesToAddress envW.head.miner) 0 = .ok (8000, trW) ∧
    ((speculativeHeader envW.head (BytesToAddress envW.head.miner) 0).parentHash
        = envW.head.hash ∧
      (speculativeHeader envW.head (BytesToAddress envW.head.miner) 0).number
        = envW.head.number + 1 ∧
      (speculativeHeader envW.head (BytesToAddress envW.head.miner) 0).miner
        = BytesToAddress envW.head.miner ∧
      (speculativeHeader envW.head (BytesToAddress envW.head.miner) 0).nonce = 0 ∧
      (speculativeHeader envW.head (BytesToAddress envW.head.miner) 0).gasLimit
        = envW.head.gasLimit ∧
      (speculativeHeader envW.head (BytesToAddress envW.head.miner) 0).timestamp = 0 ∧
      envW.calculateGasLimit (envW.head.number + 1) = .ok 8000 ∧
      envW.beginTxn envW.head.stateRoot
          (speculativeHeader envW.head (BytesToAddress envW.head.miner) 0)
          (BytesToAddress envW.head.miner)
        = .ok trW) :=
  ⟨rfl, build_context_header_spec envW (BytesToAddress envW.head.miner) 0 8000 trW rfl⟩

/-- C7: when context building and the probation query succeed with set `P`,
`InProbation a` succeeds with exactly the byte-equality membership of `a` in
`P`, for an arbitrary address irrespective of role. -/
theorem in_probation_iff_mem (env : Env) (now : Nat) (a : Address)
    (gl : Nat) (t : Transition) (P : List Address)
    (hctx : buildContext env (BytesToAddress env.head.miner) now = .ok (gl, t))
    (hP : QuerySequencersInProbation env t gl (BytesToAddress env.head.miner) = .ok P) :
    InProbation env now a = .ok (decide (a ∈ P)) := by
  unfold InProbation
  simp only [hctx, hP, probationMatch_eq_decide]

/-- C7 witness: `addr2` is reported in probation in the sample environment. -/
theorem in_probation_iff_mem_witness :
    buildContext envW (BytesToAddress envW.head.miner) 0 = .ok (8000, trW) ∧
    QuerySequencersInProbation envW trW 8000 (BytesToAddress envW.head.miner)
      = .ok [addr2] ∧
    InProbation envW 0 addr2 = .ok (decide (addr2 ∈ [addr2])) :=
  ⟨rfl, rfl, in_probation_iff_mem envW 0 addr2 8000 trW [addr2] rfl rfl⟩

/-- C8: with successful context and engine calls whose return buffers are the
32-byte big-endian encoding of `V < 2 ^ 256`, `GetBalance` and
`GetTotalStakedAmount` decode to exactly `V` — in particular `.ok 0`, not an
error, for `V = 0` — and the result is a natural number, hence non-negative. -/
theorem balance_decode_round_trip (env : Env) (now : Nat) (a : Address) (V : Nat)
    (gl : Nat) (t : Transition) (mB mT : AbiMethod) (encB : List Byte)
    (resB resT : ApplyResult)
    (hV : V < 2 ^ 256)
    (hctx : buildContext env (BytesToAddress env.head.miner) now = .ok (gl, t))
    (hmB : env.stakingAbi "GetCurrentAccountStakedAmount" = some mB)
    (hencB : mB.encodeInputs a = .ok encB)
    (happB : t.apply { txFrom := BytesToAddress env.head.miner,
                       toAddr := env.addrStakingContract, value := 0,
                       input := mB.id ++ encB, gasPrice := 0, gas := gl,
                       nonce := t.getNonce (BytesToAddress env.head.miner) } = .ok resB)
    (hfB : resB.failed = false) (hrB : resB.returnValue = beBytes 32 V)
    (hmT : env.stakingAbi "GetCurrentStakedAmount" = some mT)
    (happT : t.apply { txFrom := BytesToAddress env.head.miner,
                       toAddr := env.addrStakingContract, value := 0,
                       input := mT.id, gasPrice := 0, gas := gl,
                       nonce := t.getNonce (BytesToAddress env.head.miner) } = .ok resT)
    (hfT : resT.failed = false) (hrT : resT.returnValue = beBytes 32 V) :
    GetBalance env now a = .ok V ∧ GetTotalStakedAmount env now = .ok V := by
  have hdec : bigIntSetBytes (beBytes 32 V) = V := by
    rw [bigIntSetBytes_beBytes, show (256 : Nat) ^ 32 = 2 ^ 256 by norm_num]
    exact Nat.mod_eq_of_lt hV
  constructor
  · unfold GetBalance QueryParticipantBalance
    simp only [hctx, hmB, hencB, happB, hfB, hrB, hdec, Bool.false_eq_true,
      if_false]
  · unfold GetTotalStakedAmount QueryParticipantTotalStakedAmount
    simp only [hctx, hmT, happT, hfT, hrT, hdec, Bool.false_eq_true, if_false]

/-- C8 witness: the theorem at `V = 0` in the sample environment, whose
engine returns the 32-byte big-endian encoding of zero. -/
theorem balance_decode_round_trip_witness :
    (0 : Nat) < 2 ^ 256 ∧
    GetBalance envW 0 addr1 = .ok 0 ∧ GetTotalStakedAmount envW 0 = .ok 0 := by
  have h := balance_decode_round_trip envW 0 addr1 0 8000 trW mBalW mTotW addr1
    applyResultW applyResultW (by positivity) rfl rfl rfl rfl rfl rfl rfl rfl rfl rfl
  exact ⟨by positivity, h.1, h.2⟩

/-- C9: if the engine does not distinguish speculative headers that differ
only in the advisory timestamp field, every resolver operation returns the
same result for any two wall-clock timestamp choices. -/
theorem resolver_timestamp_independent (env : Env) (hts : timestampOblivious env)
    (n1 n2 n1' n2' : Nat) (nt : NodeType) (a : Address) :
    Get env n1 n2 nt = Get env n1' n2' nt ∧
    Contains env n1 n2 a nt = Contains env n1' n2' a nt ∧
    InProbation env n1 a = InProbation env n1' a ∧
    GetBalance env n1 a = GetBalance env n1' a ∧
    GetTotalStakedAmount env n1 = GetTotalStakedAmount env n1' := by
  refine ⟨get_timestamp_eq env hts n1 n2 n1' n2' nt, ?_, ?_, ?_, ?_⟩
  · unfold Contains
    rw [get_timestamp_eq env hts n1 n2 n1' n2' nt]
  · unfold InProbation
    rw [buildContext_timestamp_eq env hts (BytesToAddress env.head.miner) n1 n1']
  · unfold GetBalance
    rw [buildContext_timestamp_eq env hts (BytesToAddress env.head.miner) n1 n1']
  · unfold GetTotalStakedAmount
    rw [buildContext_timestamp_eq env hts (BytesToAddress env.head.miner) n1 n1']

/-- C9 witness: the sample engine ignores the header entirely, so it is
timestamp-oblivious, and all five operations agree across timestamps. -/
theorem resolver_timestamp_independent_witness :
    timestampOblivious envW ∧
    (Get envW 1 2 Sequencer = Get envW 3 4 Sequencer ∧
      Contains envW 1 2 addr1 Sequencer = Contains envW 3 4 addr1 Sequencer ∧
      InProbation envW 1 addr1 = InProbation envW 3 addr1 ∧
      GetBalance envW 1 addr1 = GetBalance envW 3 addr1 ∧
      GetTotalStakedAmount envW 1 = GetTotalStakedAmount envW 3) :=
  ⟨fun _ _ _ _ _ _ _ _ _ _ _ => rfl,
    resolver_timestamp_independent envW (fun _ _ _ _ _ _ _ _ _ _ _ => rfl)
      1 2 3 4 Sequencer addr1⟩

/-- C10: every `DumbActiveParticipants` method returns a constant independent
of its arguments and of any chain state: `Get`, `GetBalance` and
`GetTotalStakedAmount` give `(nil, nil)`, `Contains` and `InProbation` give
`(true, nil)`. -/
theorem dumb_active_participants_constant :
    (∀ nt : NodeType, DumbActiveParticipants.Get nt = (none, none)) ∧
    (∀ (a : Address) (nt : NodeType), DumbActiveParticipants.Contains a nt = (true, none)) ∧
    (∀ a : Address, DumbActiveParticipants.InProbation a = (true, none)) ∧
    (∀ a : Address, DumbActiveParticipants.GetBalance a = (none, none)) ∧
    DumbActiveParticipants.GetTotalStakedAmount = (none, none) :=
  ⟨fun _ => rfl, fun _ _ => rfl, fun _ => rfl, fun _ => rfl, rfl⟩

end Staking
